import Mathlib

/-!
Verification development for AFQ/tractography.py.

The file `AFQ/tractography.py` defines a single public function `track`
and a worker `_local_tracking`.  All diffusion-imaging machinery
(image loading, seed sampling from a mask, direction getters, tissue
classifiers, the `LocalTracking` streamline integrator) is delegated to
the external dipy/nibabel libraries; those externals are abstracted here
as total function parameters.  What this repository itself computes is:

* the dispatch on the `directions` string selecting a direction-getter
  class (lines 74-77);
* the dispatch on the last dimension of the model-parameter volume
  selecting the biophysical model (lines 80-90), where reading the
  local variable `model` or `dg` when no branch assigned it is a
  Python NameError / UnboundLocalError, modelled here by an `Except`
  error value;
* the serial / parallel split (lines 102-119): in serial mode one
  tracking call over the full seed array, in parallel mode the
  chunking loop (lines 106-113) followed by `parfor` and a
  `chain`-flattening of the per-chunk results — where entering the
  chunking branch with a chunk count of 0 divides by zero at line 109,
  a ZeroDivisionError modelled as an `Except` error;
* the 1-D-to-2-D seed promotion in `_local_tracking` (lines 126-127).

Seeds are modelled abstractly: a 2-D seed array is a `List α` of rows
(each row one 3-D seed point), so Python iteration over the 2-D array
yields its rows, and a slice `seeds[i1:i2]` is drop-then-take.
-/

namespace AFQ

/-- Direction-getter classes selectable by the `directions` string
(DeterministicMaximumDirectionGetter and ProbabilisticDirectionGetter,
tractography.py lines 74-77). -/
inductive DgClass where
  | deterministic
  | probabilistic
deriving DecidableEq, Repr

/-- Biophysical model parameterizations distinguished by the dispatch on
`model_params.shape[-1]` (tractography.py lines 80-85). -/
inductive Model where
  | ODF
  | SHM
deriving DecidableEq, Repr

/-- Failures of the code of `track` itself.  The first two are a
Python NameError / UnboundLocalError from reading a local variable
that no branch assigned: `nameErrorModel` is the read of `model` at line 87
when neither shape branch fired; `nameErrorDg` is the read of `dg` at
line 88 or 91 when the `directions` string matched neither branch.
`zeroDivisionError` is the ZeroDivisionError raised at line 109
computing `seeds.shape[0] // n_chunks` when `n_chunks` is 0 and the
chunking branch `n_chunks < seeds.shape[0]` was entered. -/
inductive Err where
  | nameErrorModel
  | nameErrorDg
  | zeroDivisionError
deriving DecidableEq, Repr

/-- Argument shape received by the worker `_local_tracking`: either a
single seed row (a 1-D array, as produced by iterating over a 2-D numpy
array) or a 2-D array of seed rows. -/
inductive SeedInput (α : Type) where
  | oneD (s : α)
  | twoD (rows : List α)
deriving DecidableEq, Repr

/-- String literal compared against `directions` at line 74. -/
def detString : String := "det"

/-- String literal compared against `directions` at line 76. -/
def probString : String := "prob"

/-- String literal compared against `engine` at line 102. -/
def serialString : String := "serial"

/-- Spelling used by the docstring of `track` for deterministic
tracking; it is not one of the strings the code compares against. -/
def deterministicString : String := "deterministic"

/-- Spelling used by the docstring of `track` for probabilistic
tracking; it is not one of the strings the code compares against. -/
def probablisticString : String := "probablistic"

/-- Default value of the `engine` keyword argument of `track`. -/
def daskString : String := "dask"

/-- Python slice `l[i:j]` for `0 ≤ i ≤ j`: drop the first `i` elements,
keep the next `j - i` (both ends clamped to the list length, as in
Python). -/
def pySlice {α : Type} (l : List α) (i j : ℕ) : List α :=
  (l.drop i).take (j - i)

/-- The chunking loop of `track` (tractography.py lines 107-113):

    seeds_list = []
    i2 = 0
    seeds_per_chunk = seeds.shape[0] // n_chunks
    for chunk in range(n_chunks - 1):
        i1 = i2
        i2 = seeds_per_chunk * (chunk + 1)
        seeds_list.append(seeds[i1:i2])

At iteration `chunk` the slice appended is
`seeds[seeds_per_chunk * chunk : seeds_per_chunk * (chunk + 1)]`, and
the loop runs for `chunk = 0, …, n_chunks - 2`. -/
def seedsList {α : Type} (seeds : List α) (nChunks : ℕ) : List (List α) :=
  (List.range (nChunks - 1)).map fun chunk =>
    pySlice seeds (seeds.length / nChunks * chunk)
      (seeds.length / nChunks * (chunk + 1))

/-- The iterable handed to `parfor` in the parallel branch of `track`
(lines 106-114): if `n_chunks < seeds.shape[0]` it is the list of 2-D
chunks built by the loop, otherwise it is `seeds` itself — and Python
iteration over a 2-D array yields its 1-D rows, so each element handed
to the worker is then a single seed row. -/
def trackChunks {α : Type} (seeds : List α) (nChunks : ℕ) : List (SeedInput α) :=
  if nChunks < seeds.length then
    (seedsList seeds nChunks).map SeedInput.twoD
  else
    seeds.map SeedInput.oneD

/-- The seed-promotion step of `_local_tracking` (lines 126-127):
`if len(seeds.shape) == 1: seeds = seeds[None, ...]` turns a 1-D seed
row into a 2-D array with that single row; a 2-D array is unchanged. -/
def promoteSeeds {α : Type} : SeedInput α → SeedInput α
  | SeedInput.oneD s => SeedInput.twoD [s]
  | SeedInput.twoD rows => SeedInput.twoD rows

/-- The worker `_local_tracking` (lines 123-135): promote the seed
argument to 2-D, then run the external `LocalTracking` integrator over
it and listify the result.  The integrator (together with the direction
getter, classifier, affine and step size it closes over) is abstracted
as the total function `integrate`. -/
def localTrack {α σ : Type} (integrate : SeedInput α → List σ) (si : SeedInput α) : List σ :=
  integrate (promoteSeeds si)

/-- Modelled from the spec: `AFQ.utils.parallel.parfor` is code of this
repository that is not under src/.  The spec describes it as a generic
parallel-map helper that distributes per-chunk tracking calls across
workers and whose chunked results are flattened back into a single
list, i.e. an order-preserving map of the function over the elements of
the iterable (the scheduling backend is irrelevant to the values
computed). -/
def parfor {β γ : Type} (f : β → γ) (inList : List β) : List γ :=
  inList.map f

/-- The direction-getter class dispatch of `track` (lines 74-77): the
local `dg` is assigned only when `directions` is exactly "det" or
"prob"; `none` models `dg` staying unbound. -/
def dgClassOf (directions : String) : Option DgClass :=
  if directions = detString then some DgClass.deterministic
  else if directions = probString then some DgClass.probabilistic
  else none

/-- The model dispatch of `track` (lines 80-85): last dimension 12 or
27 selects the tensor/ODF path, otherwise an even value of the external
`shm.calculate_max_order` (abstracted as the total function `maxOrder`)
selects the SHM path; `none` models the local `model` staying unbound. -/
def modelOf (maxOrder : ℕ → ℕ) (lastDim : ℕ) : Option Model :=
  if lastDim = 12 ∨ lastDim = 27 then some Model.ODF
  else if maxOrder lastDim % 2 = 0 then some Model.SHM
  else none

/-- The function `track` (lines 57-121), after input normalization:
`lastDim` is `model_params.shape[-1]`, `seeds` is the 2-D seed array
(list of rows), `maxOrder` abstracts `shm.calculate_max_order` and
`integrate` abstracts the external streamline integration.

Control flow follows the source: at line 87 the local `model` is read
(NameError if no shape branch assigned it), then inside the chosen
branch the local `dg` is read (line 88 or 91; NameError if the
`directions` dispatch assigned nothing); both happen before the
classifier is built and before any tracking.  Then either the serial
branch returns one `_local_tracking` call over the full seed array
(lines 102-104), or the parallel branch runs: when it takes the
chunking sub-branch (`n_chunks < seeds.shape[0]`, line 106) it first
computes `seeds.shape[0] // n_chunks` at line 109, a ZeroDivisionError
when `n_chunks` is 0; otherwise it maps `_local_tracking` over the
chunk iterable with `parfor` and flattens the per-chunk lists with
`chain` (lines 105-121). -/
def track {α σ : Type} (directions : String) (maxOrder : ℕ → ℕ) (lastDim : ℕ)
    (seeds : List α) (engine : String) (nChunks : ℕ)
    (integrate : SeedInput α → List σ) : Except Err (List σ) :=
  match modelOf maxOrder lastDim with
  | none => Except.error Err.nameErrorModel
  | some _ =>
    match dgClassOf directions with
    | none => Except.error Err.nameErrorDg
    | some _ =>
      if engine = serialString then
        Except.ok (localTrack integrate (SeedInput.twoD seeds))
      else
        if nChunks < seeds.length ∧ nChunks = 0 then
          Except.error Err.zeroDivisionError
        else
          Except.ok (List.flatten (parfor (localTrack integrate) (trackChunks seeds nChunks)))

/-- C1: evaluation of the chunking code at a failing input.  For a seed
array of length S = 5 and chunk count C = 2 (so C < S), the chunk list
built by the loop of `track` is `[[0, 1]]`: its in-order concatenation
is `[0, 1]`, not the original seed array — seeds 2, 3 and 4 appear in
no chunk, because the final remainder-absorbing slice is never
appended. -/
theorem c1_concat_drops_tail :
    List.flatten (seedsList ([0, 1, 2, 3, 4] : List ℕ) 2) = [0, 1] ∧
      List.flatten (seedsList ([0, 1, 2, 3, 4] : List ℕ) 2) ≠ [0, 1, 2, 3, 4] := by
  decide

/-- C2: evaluation of the chunking code at a failing input.  For S = 5
seeds and C = 2 chunks the loop produces exactly one slice `[0, 1]`,
not the C = 2 slices the spec states; the last slice that should absorb
the remainder (here `[2, 3, 4]`) is never created. -/
theorem c2_chunk_count_short :
    (seedsList ([0, 1, 2, 3, 4] : List ℕ) 2).length = 1 ∧
      seedsList ([0, 1, 2, 3, 4] : List ℕ) 2 = [[0, 1]] := by
  decide

/-- C3, counterexample: with every external call abstracted as total
(no external failure at all) and `directions = "deterministic"` — a
value the docstring of `track` itself lists — `track` still fails, with
a NameError raised by its own dispatch code reading the unbound local
`dg`.  So not every failure of `track` originates in an external
library call. -/
theorem c3_wrapper_failure_cex :
    track deterministicString (fun _ => 1) 12 ([0] : List ℕ) serialString 100
        (fun _ => ([] : List ℕ))
      = Except.error Err.nameErrorDg := by
  rfl

/-- C3, amended: `track` contains no raise and no try/except, and with
the external calls abstracted as total functions it fails exactly when
its own code does: the result is an error if and only if the shape
dispatch assigned no model, or the `directions` dispatch assigned no
direction-getter class, or (in parallel mode) the chunking branch is
entered with a chunk count of 0, where computing seeds per chunk
divides by zero.  All other failures come from the externals and
propagate unmodified. -/
theorem c3_error_iff_dispatch {α σ : Type} (directions : String) (maxOrder : ℕ → ℕ)
    (lastDim : ℕ) (seeds : List α) (engine : String) (nChunks : ℕ)
    (integrate : SeedInput α → List σ) :
    (∃ e, track directions maxOrder lastDim seeds engine nChunks integrate
        = Except.error e)
      ↔ (modelOf maxOrder lastDim = none ∨ dgClassOf directions = none ∨
          (engine ≠ serialString ∧ nChunks < seeds.length ∧ nChunks = 0)) := by
  cases hm : modelOf maxOrder lastDim with
  | none => simp [track, hm]
  | some m =>
    cases hd : dgClassOf directions with
    | none => simp [track, hm, hd]
    | some d =>
      by_cases he : engine = serialString
      · simp [track, hm, hd, he]
      · by_cases hc : nChunks < seeds.length ∧ nChunks = 0
        · obtain ⟨h1, h2⟩ := hc
          subst h2
          simp [track, hm, hd, he, h1]
        · simp [track, hm, hd, he, hc]

/-- C4, counterexample: in parallel mode with S = 2 seeds and chunk
count C = 3 (so C ≥ S), the iterable handed to the parallel-map helper
is the seed array itself, whose Python iteration yields the individual
seed rows: the worker is called twice, once per single seed, and no
single call receives the entire seed set as one 2-D unit. -/
theorem c4_not_single_unit_cex :
    trackChunks ([10, 20] : List ℕ) 3 = [SeedInput.oneD 10, SeedInput.oneD 20] ∧
      trackChunks ([10, 20] : List ℕ) 3 ≠ [SeedInput.twoD [10, 20]] := by
  decide

/-- C4, amended: for chunk count C ≥ S in parallel mode, the seed array
itself is handed to the parallel-map helper, which therefore
distributes one tracking call per individual seed row (S calls, each
over a single 1-D seed promoted to one row by the worker), not one call
over the entire set. -/
theorem c4_rowwise_distribution {α : Type} (seeds : List α) (nChunks : ℕ)
    (h : seeds.length ≤ nChunks) :
    trackChunks seeds nChunks = seeds.map SeedInput.oneD := by
  simp [trackChunks, Nat.not_lt.mpr h]

/-- C4, witness for the amended theorem at seeds `[10, 20]`, C = 3. -/
theorem c4_rowwise_distribution_witness :
    ([10, 20] : List ℕ).length ≤ 3 ∧
      trackChunks ([10, 20] : List ℕ) 3 = ([10, 20] : List ℕ).map SeedInput.oneD :=
  ⟨by decide, c4_rowwise_distribution ([10, 20] : List ℕ) 3 (by decide)⟩

/-- C5: the model parameterization is decided solely by the size of the
last dimension of the parameter volume: size 12 or 27 selects the
tensor/ODF construction path, and otherwise the SHM construction path
is selected exactly when the external maximum spherical-harmonic order
of that size is even. -/
theorem c5_model_dispatch (maxOrder : ℕ → ℕ) (lastDim : ℕ) :
    (modelOf maxOrder lastDim = some Model.ODF ↔ (lastDim = 12 ∨ lastDim = 27)) ∧
      (modelOf maxOrder lastDim = some Model.SHM ↔
        (¬(lastDim = 12 ∨ lastDim = 27) ∧ maxOrder lastDim % 2 = 0)) := by
  by_cases h : lastDim = 12 ∨ lastDim = 27 <;>
    by_cases hp : maxOrder lastDim % 2 = 0 <;>
      simp [modelOf, h, hp]

/-- C6: when `engine = "serial"` and the two dispatches succeed,
`track` performs exactly one tracking call, over the full seed array,
and returns its result directly: no chunk partitioning and no
parallel-map call occur. -/
theorem c6_serial_single_call {α σ : Type} (directions : String) (maxOrder : ℕ → ℕ)
    (lastDim : ℕ) (seeds : List α) (engine : String) (nChunks : ℕ)
    (integrate : SeedInput α → List σ)
    (hm : (modelOf maxOrder lastDim).isSome = true)
    (hd : (dgClassOf directions).isSome = true)
    (he : engine = serialString) :
    track directions maxOrder lastDim seeds engine nChunks integrate
      = Except.ok (localTrack integrate (SeedInput.twoD seeds)) := by
  cases hm' : modelOf maxOrder lastDim with
  | none => rw [hm'] at hm; simp at hm
  | some m =>
    cases hd' : dgClassOf directions with
    | none => rw [hd'] at hd; simp at hd
    | some d => simp [track, hm', hd', he]

/-- C6, witness: directions "det", last dimension 12, engine "serial". -/
theorem c6_serial_single_call_witness :
    track detString (fun _ => 1) 12 ([0, 1] : List ℕ) serialString 100
        (fun si => ([si] : List (SeedInput ℕ)))
      = Except.ok (localTrack (fun si => ([si] : List (SeedInput ℕ)))
          (SeedInput.twoD [0, 1])) :=
  c6_serial_single_call detString (fun _ => 1) 12 ([0, 1] : List ℕ) serialString 100
    (fun si => ([si] : List (SeedInput ℕ))) (by decide) (by decide) rfl

/-- C7: in parallel mode (engine not "serial"), every value that
`track` returns is the flattening, in chunk order, of the per-chunk
streamline lists produced by the worker over the chunk iterable.  On
the parallel inputs where `track` instead raises (an unbound local, or
the division by zero at line 109 when the chunking branch is entered
with chunk count 0) no value is returned and the claim says nothing. -/
theorem c7_parallel_flatten {α σ : Type} (directions : String) (maxOrder : ℕ → ℕ)
    (lastDim : ℕ) (seeds : List α) (engine : String) (nChunks : ℕ)
    (integrate : SeedInput α → List σ) (res : List σ)
    (he : engine ≠ serialString)
    (hres : track directions maxOrder lastDim seeds engine nChunks integrate
      = Except.ok res) :
    res = List.flatten ((trackChunks seeds nChunks).map (localTrack integrate)) := by
  cases hm : modelOf maxOrder lastDim with
  | none => simp [track, hm] at hres
  | some m =>
    cases hd : dgClassOf directions with
    | none => simp [track, hm, hd] at hres
    | some d =>
      by_cases hc : nChunks < seeds.length ∧ nChunks = 0
      · obtain ⟨h1, h2⟩ := hc
        subst h2
        simp [track, hm, hd, he, h1] at hres
      · simp [track, parfor, hm, hd, he, hc] at hres
        exact hres.symm

/-- C7, witness: directions "det", last dimension 12, engine "dask",
three seeds and C = 100 ≥ S, with an integrator that returns its
promoted argument, so each of the three rowwise chunks contributes one
element to the flattened result. -/
theorem c7_parallel_flatten_witness :
    ([SeedInput.twoD [0], SeedInput.twoD [1], SeedInput.twoD [2]] : List (SeedInput ℕ))
      = List.flatten ((trackChunks ([0, 1, 2] : List ℕ) 100).map
          (localTrack (fun si => ([si] : List (SeedInput ℕ))))) :=
  c7_parallel_flatten detString (fun _ => 1) 12 ([0, 1, 2] : List ℕ) daskString 100
    (fun si => ([si] : List (SeedInput ℕ)))
    ([SeedInput.twoD [0], SeedInput.twoD [1], SeedInput.twoD [2]] : List (SeedInput ℕ))
    (by decide) rfl

/-- C8: when the last dimension is neither 12 nor 27 and its maximum
spherical-harmonic order is odd, no branch assigns the local `model`,
so `track` fails with the NameError raised on reading `model` — before
any tracking call is made (the error value is returned in place of any
streamline list, for every engine and seed set). -/
theorem c8_unassigned_model_error {α σ : Type} (directions : String) (maxOrder : ℕ → ℕ)
    (lastDim : ℕ) (seeds : List α) (engine : String) (nChunks : ℕ)
    (integrate : SeedInput α → List σ)
    (h12 : lastDim ≠ 12) (h27 : lastDim ≠ 27)
    (hodd : maxOrder lastDim % 2 ≠ 0) :
    track directions maxOrder lastDim seeds engine nChunks integrate
      = Except.error Err.nameErrorModel := by
  have hm : modelOf maxOrder lastDim = none := by
    simp [modelOf, h12, h27, hodd]
  simp [track, hm]

/-- C8, witness: last dimension 13 with an odd maximum order. -/
theorem c8_unassigned_model_error_witness :
    track detString (fun _ => 1) 13 ([0] : List ℕ) serialString 100
        (fun _ => ([] : List ℕ))
      = Except.error Err.nameErrorModel :=
  c8_unassigned_model_error detString (fun _ => 1) 13 ([0] : List ℕ) serialString 100
    (fun _ => ([] : List ℕ)) (by decide) (by decide) (by decide)

/-- C9: for every `directions` value other than the exact strings "det"
and "prob", `track` returns an error rather than performing tracking:
either the NameError on the unbound `model` (when the shape dispatch
also failed) or the NameError on the unbound `dg`, which was never
assigned a direction-getter class. -/
theorem c9_bad_directions_error {α σ : Type} (directions : String) (maxOrder : ℕ → ℕ)
    (lastDim : ℕ) (seeds : List α) (engine : String) (nChunks : ℕ)
    (integrate : SeedInput α → List σ)
    (h1 : directions ≠ detString) (h2 : directions ≠ probString) :
    ∃ e, track directions maxOrder lastDim seeds engine nChunks integrate
      = Except.error e := by
  have hd : dgClassOf directions = none := by
    simp [dgClassOf, h1, h2]
  cases hm : modelOf maxOrder lastDim with
  | none => exact ⟨Err.nameErrorModel, by simp [track, hm]⟩
  | some m => exact ⟨Err.nameErrorDg, by simp [track, hm, hd]⟩

/-- C9, witness: the docstring spelling "probablistic" with a
last dimension of 12. -/
theorem c9_bad_directions_error_witness :
    ∃ e, track probablisticString (fun _ => 1) 12 ([0] : List ℕ) serialString 100
      (fun _ => ([] : List ℕ)) = Except.error e :=
  c9_bad_directions_error probablisticString (fun _ => 1) 12 ([0] : List ℕ)
    serialString 100 (fun _ => ([] : List ℕ)) (by decide) (by decide)

/-- C10: the worker `_local_tracking` first promotes a 1-D seed (a
single 3-D point) to a 2-D array with exactly one row, so for every
external integrator a single-seed chunk is handled identically to the
one-row 2-D chunk holding the same seed. -/
theorem c10_oneD_promotion {α σ : Type} (integrate : SeedInput α → List σ) (s : α) :
    localTrack integrate (SeedInput.oneD s)
      = localTrack integrate (SeedInput.twoD [s]) :=
  rfl

end AFQ
